import Mathlib

/-!
Verification of the `EventHandler` listener registry of the mo-modal repository
(`src/unnamed/part_000`, exported alongside `loadStyleSheet` and used by
`src/modal.js`).

The registry is a process-wide `WeakMap` from an event target to a `Map` from
subscription key (an event type optionally extended by a dot-separated name,
e.g. `"click.cancel"`) to an `AbortController`.  The three static operations
`attach`, `detach` and `detachAll` are embedded below as pure functions on an
explicit state.  The pieces of the host platform the code consumes are embedded
with their standard semantics:

* object identities are natural numbers; an argument carries the result of the
  `instanceof EventTarget` test (`EvtArg.valid`);
* `AbortController`s are allocated with fresh numeric identities
  (`EHState.nextCtrl`); the set of aborted controllers is `EHState.aborted`;
* `addEventListener(type, callback, { signal })` appends a listener record
  unless the signal is already aborted; dispatching an event runs, in
  registration order, exactly the listeners of that target and type whose abort
  signal has not fired;
* JS `Map`s and `WeakMap`s are insertion-ordered association lists with the
  shared accessors `jsGet`, `jsSet`, `jsDelete`;
* accessing the non-existent property `size` of an `AbortController` yields
  `undefined`, embedded as `none` (the code compares it against `0`).
-/

/-- An argument passed where the code expects an `EventTarget`: an object
identity together with the outcome of the `instanceof EventTarget` test. -/
structure EvtArg where
  id : Nat
  valid : Bool
deriving DecidableEq, Repr

/-- A listener registration made by `addEventListener(type, callback, { signal })`:
the event type actually registered, the callback, and the abort signal
(identified by its controller). -/
structure Listener where
  evType : String
  callback : Nat
  signal : Nat
deriving DecidableEq, Repr

/-- JS `Map.prototype.get` / `WeakMap.prototype.get` on an insertion-ordered
association list. -/
def jsGet {κ ν : Type} [BEq κ] : List (κ × ν) → κ → Option ν
  | [], _ => none
  | p :: ps, k => if p.1 == k then some p.2 else jsGet ps k

/-- JS `Map.prototype.set` / `WeakMap.prototype.set`: update the existing entry
in place when the key is present, otherwise append a new entry. -/
def jsSet {κ ν : Type} [BEq κ] : List (κ × ν) → κ → ν → List (κ × ν)
  | [], k, v => [(k, v)]
  | p :: ps, k, v => if p.1 == k then (k, v) :: ps else p :: jsSet ps k v

/-- JS `Map.prototype.delete` / `WeakMap.prototype.delete`: remove the entry
with the given key. -/
def jsDelete {κ ν : Type} [BEq κ] (m : List (κ × ν)) (k : κ) : List (κ × ν) :=
  m.filter (fun p => p.1 != k)

/-- The state the `EventHandler` code can observe and mutate:
`EventHandler._abortControllers` (target identity to key-to-controller map),
the platform's listener registrations, the set of aborted controllers, and the
allocator for fresh controller identities. -/
structure EHState where
  abortControllers : List (Nat × List (String × Nat))
  domListeners : List (Nat × Listener)
  aborted : List Nat
  nextCtrl : Nat
deriving DecidableEq, Repr

/-- The state before any `EventHandler` call: `new WeakMap()`, no listeners, no
controllers. -/
def initState : EHState := ⟨[], [], [], 0⟩

/-- `controller.abort()`: marks the controller aborted.  Aborting is idempotent. -/
def abortCtrl (ab : List Nat) (c : Nat) : List Nat :=
  if ab.contains c then ab else ab ++ [c]

/-- Accessing `controller.size` on an `AbortController`: the property does not
exist, so the JS member access yields `undefined`, embedded as `none`. -/
def controllerSize (_c : Nat) : Option Nat := none

/-- `eventTarget.addEventListener(ty, callback, { signal: controller.signal })`:
a no-op when the signal is already aborted, otherwise the listener is appended. -/
def addEventListener (s : EHState) (tid : Nat) (ty : String) (cb ctrl : Nat) : EHState :=
  if s.aborted.contains ctrl then s
  else { s with domListeners := s.domListeners ++ [(tid, ⟨ty, cb, ctrl⟩)] }

/-- JS `String.prototype.split` with a one-character separator, on the
character list of the string. -/
def jsSplit (sep : Char) : List Char → List (List Char)
  | [] => [[]]
  | c :: cs =>
    match jsSplit sep cs with
    | r :: rs => if c = sep then [] :: r :: rs else (c :: r) :: rs
    | [] => [[]]

/-- `eventType.split('.')[0]`: the event type actually passed to
`addEventListener` in `attach`. -/
def typeToken (k : String) : String := ⟨(jsSplit '.' k.data).headD []⟩

/-- The portion of a subscription key strictly before the first dot (the whole
key when it has no dot).  Written from the spec's description of the type
token; compared against `typeToken`, which follows the code. -/
def specTypeToken (k : String) : String := ⟨k.data.takeWhile (fun c => c != '.')⟩

/-- The listeners invoked by `eventTarget.dispatchEvent(new Event(ty))`, in
registration order: listeners of this target and type whose abort signal has
not fired. -/
def dispatchInvoked (s : EHState) (tid : Nat) (ty : String) : List Listener :=
  (s.domListeners.filter
    (fun p => p.1 == tid && p.2.evType == ty && !(s.aborted.contains p.2.signal))).map Prod.snd

/-- The callbacks invoked by dispatching event `ty` on target `tid`, in order. -/
def dispatch (s : EHState) (tid : Nat) (ty : String) : List Nat :=
  (dispatchInvoked s tid ty).map Listener.callback

/-- Whether the registry holds an entry for the target: the observable behind
the spec's "has any subscription" query. -/
def hasEntry (s : EHState) (tid : Nat) : Bool :=
  (jsGet s.abortControllers tid).isSome

/-- The controllers recorded in the registry entry of a target (empty when the
target has no entry). -/
def entryCtrls (s : EHState) (tid : Nat) : List Nat :=
  ((jsGet s.abortControllers tid).getD []).map Prod.snd

namespace EventHandler

/-- Body of the `for (const eventTarget of eventTargets)` loop of
`EventHandler.detach(eventType, ...eventTargets)`, for one target.  Note the
guard `controllers.delete(eventType) && controller.size === 0`: the call
`controllers.delete(eventType)` runs (and removes the key) before the second
conjunct is evaluated, and `controller` is the `AbortController`, whose `size`
access yields `undefined`. -/
def detachOne (s : EHState) (eventType : String) (t : EvtArg) : EHState :=
  if !t.valid then s
  else
    match jsGet s.abortControllers t.id with
    | none => s
    | some controllers =>
      match jsGet controllers eventType with
      | none => s
      | some controller =>
        let s1 : EHState := { s with aborted := abortCtrl s.aborted controller }
        let deleted := (jsGet controllers eventType).isSome
        let s2 : EHState :=
          { s1 with
              abortControllers :=
                jsSet s1.abortControllers t.id (jsDelete controllers eventType) }
        if deleted && (controllerSize controller == some 0) then
          { s2 with abortControllers := jsDelete s2.abortControllers t.id }
        else s2

/-- `EventHandler.detach(eventType, ...eventTargets)`. -/
def detach (s : EHState) (eventType : String) (eventTargets : List EvtArg) : EHState :=
  eventTargets.foldl (fun acc t => detachOne acc eventType t) s

/-- `EventHandler.attach(eventType, eventTarget, callback)`. -/
def attach (s : EHState) (eventType : String) (t : EvtArg) (callback : Nat) : EHState :=
  if !t.valid then s
  else
    let s1 := detach s eventType [t]
    let controller := s1.nextCtrl
    let s2 : EHState := { s1 with nextCtrl := s1.nextCtrl + 1 }
    let controllers := (jsGet s2.abortControllers t.id).getD []
    let controllers1 := jsSet controllers eventType controller
    let s3 := addEventListener s2 t.id (typeToken eventType) callback controller
    { s3 with abortControllers := jsSet s3.abortControllers t.id controllers1 }

/-- Body of the loop of `EventHandler.detachAll(...eventTargets)`, for one
target: abort every controller of the entry, clear the entry, delete it from
the registry. -/
def detachAllOne (s : EHState) (t : EvtArg) : EHState :=
  if !t.valid then s
  else
    match jsGet s.abortControllers t.id with
    | none => s
    | some controllers =>
      { s with
          aborted := controllers.foldl (fun ab p => abortCtrl ab p.2) s.aborted,
          abortControllers := jsDelete s.abortControllers t.id }

/-- `EventHandler.detachAll(...eventTargets)`. -/
def detachAll (s : EHState) (eventTargets : List EvtArg) : EHState :=
  eventTargets.foldl detachAllOne s

end EventHandler

section AssocLemmas

variable {κ ν : Type} [BEq κ] [LawfulBEq κ]

lemma jsGet_jsSet_self (m : List (κ × ν)) (k : κ) (v : ν) :
    jsGet (jsSet m k v) k = some v := by
  induction m with
  | nil => simp [jsGet, jsSet]
  | cons p ps ih =>
    cases h : p.1 == k with
    | true => simp [jsSet, h, jsGet]
    | false => simp [jsSet, h, jsGet, ih]

lemma jsGet_jsSet_ne (m : List (κ × ν)) (k k' : κ) (v : ν) (h : k' ≠ k) :
    jsGet (jsSet m k v) k' = jsGet m k' := by
  have hkk : (k == k') = false := by
    simpa using fun hkk => h hkk.symm
  induction m with
  | nil => simp [jsGet, jsSet, hkk]
  | cons p ps ih =>
    cases hp : p.1 == k with
    | true =>
      have hp1 : p.1 = k := by simpa using hp
      simp [jsSet, hp, jsGet, hkk, hp1]
    | false => simp [jsSet, hp, jsGet, ih]

lemma jsGet_jsDelete_self (m : List (κ × ν)) (k : κ) :
    jsGet (jsDelete m k) k = none := by
  induction m with
  | nil => simp [jsGet, jsDelete]
  | cons p ps ih =>
    cases hp : p.1 == k with
    | true => simpa [jsDelete, List.filter_cons, bne, hp] using ih
    | false => simpa [jsDelete, List.filter_cons, bne, hp, jsGet] using ih

lemma jsGet_jsDelete_ne (m : List (κ × ν)) (k k' : κ) (h : k' ≠ k) :
    jsGet (jsDelete m k) k' = jsGet m k' := by
  induction m with
  | nil => simp [jsGet, jsDelete]
  | cons p ps ih =>
    cases hp : p.1 == k with
    | true =>
      have hp1 : p.1 = k := by simpa using hp
      have hpk : (p.1 == k') = false := by
        simpa [hp1] using fun hkk => h hkk.symm
      simpa [jsDelete, List.filter_cons, bne, hp, jsGet, hpk] using ih
    | false =>
      simp only [jsDelete, bne] at ih
      cases hpk : p.1 == k' with
      | true => simp [jsDelete, List.filter_cons, bne, hp, jsGet, hpk]
      | false => simp [jsDelete, List.filter_cons, bne, hp, jsGet, hpk, ih]

lemma jsGet_mem {m : List (κ × ν)} {k : κ} {v : ν} (h : jsGet m k = some v) :
    (k, v) ∈ m := by
  induction m with
  | nil => simp [jsGet] at h
  | cons p ps ih =>
    by_cases hp : (p.1 == k) = true
    · obtain ⟨a, b⟩ := p
      have hp1 : a = k := by simpa using hp
      have hv : b = v := by simpa [jsGet, hp] using h
      subst hp1
      subst hv
      exact List.mem_cons_self _ _
    · exact List.mem_cons_of_mem _ (ih (by simpa [jsGet, hp] using h))

lemma mem_jsDelete {m : List (κ × ν)} {k : κ} {p : κ × ν} (h : p ∈ jsDelete m k) :
    p ∈ m :=
  List.mem_of_mem_filter h

end AssocLemmas

lemma mem_abortCtrl_self (ab : List Nat) (c : Nat) : c ∈ abortCtrl ab c := by
  unfold abortCtrl
  split
  · next h => simpa using h
  · exact List.mem_append_right _ (List.mem_singleton.mpr rfl)

lemma mem_abortCtrl_of_mem {ab : List Nat} {x : Nat} (c : Nat) (h : x ∈ ab) :
    x ∈ abortCtrl ab c := by
  unfold abortCtrl
  split
  · exact h
  · exact List.mem_append_left _ h

lemma mem_abortCtrl {ab : List Nat} {x c : Nat} (h : x ∈ abortCtrl ab c) :
    x ∈ ab ∨ x = c := by
  unfold abortCtrl at h
  split at h
  · exact Or.inl h
  · rcases List.mem_append.mp h with h1 | h1
    · exact Or.inl h1
    · exact Or.inr (List.mem_singleton.mp h1)

lemma abortCtrl_idem (ab : List Nat) (c : Nat) :
    abortCtrl (abortCtrl ab c) c = abortCtrl ab c := by
  have hc : (abortCtrl ab c).contains c = true := by
    simpa using mem_abortCtrl_self ab c
  conv_lhs => rw [abortCtrl]
  rw [if_pos hc]

lemma mem_foldl_abort_of_mem (l : List (String × Nat)) (ab : List Nat) {x : Nat}
    (h : x ∈ ab) : x ∈ l.foldl (fun ab p => abortCtrl ab p.2) ab := by
  induction l generalizing ab with
  | nil => simpa using h
  | cons p ps ih => exact ih _ (mem_abortCtrl_of_mem _ h)

lemma mem_foldl_abort_of_entry (l : List (String × Nat)) (ab : List Nat)
    {q : String × Nat} (hq : q ∈ l) :
    q.2 ∈ l.foldl (fun ab p => abortCtrl ab p.2) ab := by
  induction l generalizing ab with
  | nil => simp at hq
  | cons p ps ih =>
    rcases List.mem_cons.mp hq with h | h
    · subst h
      exact mem_foldl_abort_of_mem ps _ (mem_abortCtrl_self ab q.2)
    · exact ih _ h

lemma mem_foldl_abort {l : List (String × Nat)} {ab : List Nat} {x : Nat}
    (h : x ∈ l.foldl (fun ab p => abortCtrl ab p.2) ab) :
    x ∈ ab ∨ ∃ q ∈ l, x = q.2 := by
  induction l generalizing ab with
  | nil => exact Or.inl (by simpa using h)
  | cons p ps ih =>
    rcases ih (by simpa using h) with h1 | h1
    · rcases mem_abortCtrl h1 with h2 | h2
      · exact Or.inl h2
      · exact Or.inr ⟨p, List.mem_cons_self _ _, h2⟩
    · rcases h1 with ⟨q, hq, hx⟩
      exact Or.inr ⟨q, List.mem_cons_of_mem _ hq, hx⟩

lemma jsSplit_ne_nil (sep : Char) (l : List Char) : jsSplit sep l ≠ [] := by
  induction l with
  | nil => simp [jsSplit]
  | cons c cs ih =>
    unfold jsSplit
    cases h : jsSplit sep cs with
    | nil => exact absurd h ih
    | cons r rs => by_cases hc : c = sep <;> simp [hc]

lemma jsSplit_headD (sep : Char) (l : List Char) :
    (jsSplit sep l).headD [] = l.takeWhile (fun c => c != sep) := by
  induction l with
  | nil => simp [jsSplit]
  | cons c cs ih =>
    unfold jsSplit
    cases h : jsSplit sep cs with
    | nil => exact absurd h (jsSplit_ne_nil sep cs)
    | cons r rs =>
      rw [h] at ih
      simp only [List.headD_cons] at ih
      by_cases hc : c = sep
      · simp [hc, List.takeWhile_cons]
      · simp [hc, List.takeWhile_cons, ih]

lemma typeToken_eq_spec (k : String) : typeToken k = specTypeToken k := by
  unfold typeToken specTypeToken
  rw [jsSplit_headD]

@[simp] lemma controllerSize_beq_zero (c : Nat) : (controllerSize c == some 0) = false := rfl

lemma detachOne_eq (s : EHState) (K : String) (t : EvtArg) :
    EventHandler.detachOne s K t =
      if !t.valid then s
      else
        match jsGet s.abortControllers t.id with
        | none => s
        | some controllers =>
          match jsGet controllers K with
          | none => s
          | some controller =>
            { s with
                aborted := abortCtrl s.aborted controller,
                abortControllers :=
                  jsSet s.abortControllers t.id (jsDelete controllers K) } := by
  unfold EventHandler.detachOne
  split
  · rfl
  · split
    · rfl
    · split
      · rfl
      · simp

lemma detachOne_domListeners (s : EHState) (K : String) (t : EvtArg) :
    (EventHandler.detachOne s K t).domListeners = s.domListeners := by
  rw [detachOne_eq]
  split
  · rfl
  · split
    · rfl
    · split
      · rfl
      · rfl

lemma detachOne_nextCtrl (s : EHState) (K : String) (t : EvtArg) :
    (EventHandler.detachOne s K t).nextCtrl = s.nextCtrl := by
  rw [detachOne_eq]
  split
  · rfl
  · split
    · rfl
    · split
      · rfl
      · rfl

lemma detachOne_invalid {s : EHState} {K : String} {t : EvtArg} (hv : t.valid = false) :
    EventHandler.detachOne s K t = s := by
  rw [detachOne_eq, hv]
  rfl

lemma detachOne_noKey {s : EHState} {K : String} {t : EvtArg}
    (h : jsGet ((jsGet s.abortControllers t.id).getD []) K = none) :
    EventHandler.detachOne s K t = s := by
  rw [detachOne_eq]
  split
  · rfl
  · split
    · rfl
    · next controllers hr =>
      split
      · rfl
      · next controller hc =>
        rw [hr] at h
        simp only [Option.getD_some] at h
        rw [h] at hc
        exact Option.noConfusion hc

lemma detachOne_aborted_mono {s : EHState} {K : String} {t : EvtArg} {x : Nat}
    (h : x ∈ s.aborted) : x ∈ (EventHandler.detachOne s K t).aborted := by
  rw [detachOne_eq]
  split
  · exact h
  · split
    · exact h
    · split
      · exact h
      · exact mem_abortCtrl_of_mem _ h

lemma detachOne_aborted_cases {s : EHState} {K : String} {t : EvtArg} {x : Nat}
    (h : x ∈ (EventHandler.detachOne s K t).aborted) :
    x ∈ s.aborted ∨ x ∈ entryCtrls s t.id := by
  rw [detachOne_eq] at h
  split at h
  · exact Or.inl h
  · split at h
    · exact Or.inl h
    · next controllers hr =>
      split at h
      · exact Or.inl h
      · next controller hc =>
        rcases mem_abortCtrl h with h1 | h1
        · exact Or.inl h1
        · refine Or.inr ?_
          subst h1
          unfold entryCtrls
          rw [hr]
          exact List.mem_map.mpr ⟨(K, x), jsGet_mem hc, rfl⟩

lemma detachOne_aborts {s : EHState} {K : String} {t : EvtArg} {c : Nat}
    (ht : t.valid = true)
    (hc : jsGet ((jsGet s.abortControllers t.id).getD []) K = some c) :
    c ∈ (EventHandler.detachOne s K t).aborted := by
  rw [detachOne_eq]
  split
  · next hcond =>
    rw [ht] at hcond
    simp at hcond
  · split
    · next hr =>
      rw [hr] at hc
      simp [jsGet] at hc
    · next controllers hr =>
      split
      · next hc2 =>
        rw [hr] at hc
        simp only [Option.getD_some] at hc
        rw [hc] at hc2
        exact Option.noConfusion hc2
      · next controller hc2 =>
        rw [hr] at hc
        simp only [Option.getD_some] at hc
        rw [hc] at hc2
        have hcc : c = controller := Option.some.inj hc2
        subst hcc
        exact mem_abortCtrl_self _ _

lemma detachOne_reg_frame {s : EHState} {K : String} {t : EvtArg} {tid : Nat}
    (h : tid ≠ t.id) :
    jsGet (EventHandler.detachOne s K t).abortControllers tid = jsGet s.abortControllers tid := by
  rw [detachOne_eq]
  split
  · rfl
  · split
    · rfl
    · split
      · rfl
      · exact jsGet_jsSet_ne _ _ _ _ h

lemma detachOne_entry_sub {s : EHState} {K : String} {t : EvtArg} {tid : Nat}
    {p : String × Nat}
    (h : p ∈ (jsGet (EventHandler.detachOne s K t).abortControllers tid).getD []) :
    p ∈ (jsGet s.abortControllers tid).getD [] := by
  rw [detachOne_eq] at h
  split at h
  · exact h
  · split at h
    · exact h
    · next controllers hr =>
      split at h
      · exact h
      · next controller hc =>
        by_cases htid : tid = t.id
        · subst htid
          rw [show (({ s with
                aborted := abortCtrl s.aborted controller,
                abortControllers :=
                  jsSet s.abortControllers t.id (jsDelete controllers K) } : EHState)).abortControllers
              = jsSet s.abortControllers t.id (jsDelete controllers K) from rfl,
            jsGet_jsSet_self] at h
          rw [hr]
          exact mem_jsDelete (by simpa using h)
        · rw [show (({ s with
                aborted := abortCtrl s.aborted controller,
                abortControllers :=
                  jsSet s.abortControllers t.id (jsDelete controllers K) } : EHState)).abortControllers
              = jsSet s.abortControllers t.id (jsDelete controllers K) from rfl,
            jsGet_jsSet_ne _ _ _ _ htid] at h
          exact h

lemma detachOne_entryCtrls_sub {s : EHState} {K : String} {t : EvtArg} {tid : Nat} {c : Nat}
    (h : c ∈ entryCtrls (EventHandler.detachOne s K t) tid) : c ∈ entryCtrls s tid := by
  unfold entryCtrls at h ⊢
  rcases List.mem_map.mp h with ⟨p, hp, hpc⟩
  exact List.mem_map.mpr ⟨p, detachOne_entry_sub hp, hpc⟩

lemma detachAllOne_domListeners (s : EHState) (t : EvtArg) :
    (EventHandler.detachAllOne s t).domListeners = s.domListeners := by
  unfold EventHandler.detachAllOne
  split
  · rfl
  · split
    · rfl
    · rfl

lemma detachAllOne_nextCtrl (s : EHState) (t : EvtArg) :
    (EventHandler.detachAllOne s t).nextCtrl = s.nextCtrl := by
  unfold EventHandler.detachAllOne
  split
  · rfl
  · split
    · rfl
    · rfl

lemma detachAllOne_invalid {s : EHState} {t : EvtArg} (hv : t.valid = false) :
    EventHandler.detachAllOne s t = s := by
  unfold EventHandler.detachAllOne
  rw [hv]
  rfl

lemma detachAllOne_noEntry {s : EHState} {t : EvtArg}
    (h : jsGet s.abortControllers t.id = none) :
    EventHandler.detachAllOne s t = s := by
  unfold EventHandler.detachAllOne
  split
  · rfl
  · split
    · rfl
    · next controllers hr =>
      rw [h] at hr
      exact Option.noConfusion hr

lemma detachAllOne_aborted_mono {s : EHState} {t : EvtArg} {x : Nat}
    (h : x ∈ s.aborted) : x ∈ (EventHandler.detachAllOne s t).aborted := by
  unfold EventHandler.detachAllOne
  split
  · exact h
  · split
    · exact h
    · exact mem_foldl_abort_of_mem _ _ h

lemma detachAllOne_aborted_cases {s : EHState} {t : EvtArg} {x : Nat}
    (h : x ∈ (EventHandler.detachAllOne s t).aborted) :
    x ∈ s.aborted ∨ x ∈ entryCtrls s t.id := by
  unfold EventHandler.detachAllOne at h
  split at h
  · exact Or.inl h
  · split at h
    · exact Or.inl h
    · next controllers hr =>
      rcases mem_foldl_abort h with h1 | ⟨q, hq, hx⟩
      · exact Or.inl h1
      · refine Or.inr ?_
        unfold entryCtrls
        rw [hr]
        exact List.mem_map.mpr ⟨q, hq, hx.symm⟩

lemma detachAllOne_aborts_entry {s : EHState} {t : EvtArg} {c : Nat}
    (ht : t.valid = true) (h : c ∈ entryCtrls s t.id) :
    c ∈ (EventHandler.detachAllOne s t).aborted := by
  unfold EventHandler.detachAllOne
  split
  · next hcond =>
    rw [ht] at hcond
    simp at hcond
  · split
    · next hr =>
      unfold entryCtrls at h
      rw [hr] at h
      simp at h
    · next controllers hr =>
      unfold entryCtrls at h
      rw [hr] at h
      simp only [Option.getD_some] at h
      rcases List.mem_map.mp h with ⟨q, hq, hqc⟩
      exact hqc ▸ mem_foldl_abort_of_entry _ _ hq

lemma detachAllOne_removes {s : EHState} {t : EvtArg} (ht : t.valid = true) :
    jsGet (EventHandler.detachAllOne s t).abortControllers t.id = none := by
  unfold EventHandler.detachAllOne
  split
  · next hcond =>
    rw [ht] at hcond
    simp at hcond
  · split
    · next hr => exact hr
    · next controllers hr => exact jsGet_jsDelete_self _ _

lemma detachAllOne_reg_frame {s : EHState} {t : EvtArg} {tid : Nat} (h : tid ≠ t.id) :
    jsGet (EventHandler.detachAllOne s t).abortControllers tid = jsGet s.abortControllers tid := by
  unfold EventHandler.detachAllOne
  split
  · rfl
  · split
    · rfl
    · exact jsGet_jsDelete_ne _ _ _ h

lemma detachAllOne_entryCtrls_sub {s : EHState} {t : EvtArg} {tid : Nat} {c : Nat}
    (h : c ∈ entryCtrls (EventHandler.detachAllOne s t) tid) : c ∈ entryCtrls s tid := by
  unfold EventHandler.detachAllOne at h
  split at h
  · exact h
  · split at h
    · exact h
    · next controllers hr =>
      by_cases htid : tid = t.id
      · subst htid
        unfold entryCtrls at h
        rw [show (({ s with
              aborted := controllers.foldl (fun ab p => abortCtrl ab p.2) s.aborted,
              abortControllers := jsDelete s.abortControllers t.id } : EHState)).abortControllers
            = jsDelete s.abortControllers t.id from rfl,
          jsGet_jsDelete_self] at h
        simp at h
      · unfold entryCtrls at h ⊢
        rw [show (({ s with
              aborted := controllers.foldl (fun ab p => abortCtrl ab p.2) s.aborted,
              abortControllers := jsDelete s.abortControllers t.id } : EHState)).abortControllers
            = jsDelete s.abortControllers t.id from rfl,
          jsGet_jsDelete_ne _ _ _ htid] at h
        exact h

lemma addEventListener_abortControllers (s : EHState) (tid : Nat) (ty : String)
    (cb ctrl : Nat) :
    (addEventListener s tid ty cb ctrl).abortControllers = s.abortControllers := by
  unfold addEventListener
  split
  · rfl
  · rfl

lemma addEventListener_aborted (s : EHState) (tid : Nat) (ty : String) (cb ctrl : Nat) :
    (addEventListener s tid ty cb ctrl).aborted = s.aborted := by
  unfold addEventListener
  split
  · rfl
  · rfl

lemma attach_invalid {s : EHState} {K : String} {t : EvtArg} {cb : Nat}
    (hv : t.valid = false) : EventHandler.attach s K t cb = s := by
  unfold EventHandler.attach
  rw [hv]
  rfl

lemma detach_singleton (s : EHState) (K : String) (t : EvtArg) :
    EventHandler.detach s K [t] = EventHandler.detachOne s K t := rfl

lemma attach_eq {s : EHState} {K : String} {t : EvtArg} {cb : Nat}
    (hv : t.valid = true) :
    EventHandler.attach s K t cb =
      { addEventListener
          { EventHandler.detachOne s K t with
              nextCtrl := (EventHandler.detachOne s K t).nextCtrl + 1 }
          t.id (typeToken K) cb (EventHandler.detachOne s K t).nextCtrl
        with
          abortControllers :=
            jsSet
              (addEventListener
                { EventHandler.detachOne s K t with
                    nextCtrl := (EventHandler.detachOne s K t).nextCtrl + 1 }
                t.id (typeToken K) cb (EventHandler.detachOne s K t).nextCtrl).abortControllers
              t.id
              (jsSet ((jsGet (EventHandler.detachOne s K t).abortControllers t.id).getD []) K
                (EventHandler.detachOne s K t).nextCtrl) } := by
  unfold EventHandler.attach
  rw [hv]
  exact rfl

lemma attach_abortControllers {s : EHState} {K : String} {t : EvtArg} {cb : Nat}
    (hv : t.valid = true) :
    (EventHandler.attach s K t cb).abortControllers =
      jsSet (EventHandler.detachOne s K t).abortControllers t.id
        (jsSet ((jsGet (EventHandler.detachOne s K t).abortControllers t.id).getD []) K
          (EventHandler.detachOne s K t).nextCtrl) := by
  rw [attach_eq hv]
  rw [show ∀ (x : EHState) (y : List (Nat × List (String × Nat))),
      ({ x with abortControllers := y } : EHState).abortControllers = y from fun _ _ => rfl]
  rw [addEventListener_abortControllers]

lemma attach_aborted {s : EHState} {K : String} {t : EvtArg} {cb : Nat}
    (hv : t.valid = true) :
    (EventHandler.attach s K t cb).aborted = (EventHandler.detachOne s K t).aborted := by
  rw [attach_eq hv]
  rw [show ∀ (x : EHState) (y : List (Nat × List (String × Nat))),
      ({ x with abortControllers := y } : EHState).aborted = x.aborted from fun _ _ => rfl]
  rw [addEventListener_aborted]

lemma detach_invalid_all {K : String} {ts : List EvtArg} (h : ∀ u ∈ ts, u.valid = false) :
    ∀ s, EventHandler.detach s K ts = s := by
  induction ts with
  | nil =>
    intro s
    rfl
  | cons t ts ih =>
    intro s
    show EventHandler.detach (EventHandler.detachOne s K t) K ts = s
    rw [detachOne_invalid (h t (List.mem_cons_self _ _))]
    exact ih (fun u hu => h u (List.mem_cons_of_mem _ hu)) s

lemma detachAll_invalid_all {ts : List EvtArg} (h : ∀ u ∈ ts, u.valid = false) :
    ∀ s, EventHandler.detachAll s ts = s := by
  induction ts with
  | nil =>
    intro s
    rfl
  | cons t ts ih =>
    intro s
    show EventHandler.detachAll (EventHandler.detachAllOne s t) ts = s
    rw [detachAllOne_invalid (h t (List.mem_cons_self _ _))]
    exact ih (fun u hu => h u (List.mem_cons_of_mem _ hu)) s

lemma detach_reg_frame {K : String} {tid : Nat} {ts : List EvtArg}
    (h : ∀ u ∈ ts, tid ≠ u.id) :
    ∀ s, jsGet (EventHandler.detach s K ts).abortControllers tid = jsGet s.abortControllers tid := by
  induction ts with
  | nil =>
    intro s
    rfl
  | cons t ts ih =>
    intro s
    show jsGet (EventHandler.detach (EventHandler.detachOne s K t) K ts).abortControllers tid = _
    rw [ih (fun u hu => h u (List.mem_cons_of_mem _ hu)) _,
      detachOne_reg_frame (h t (List.mem_cons_self _ _))]

lemma detachAll_reg_frame {tid : Nat} {ts : List EvtArg} (h : ∀ u ∈ ts, tid ≠ u.id) :
    ∀ s, jsGet (EventHandler.detachAll s ts).abortControllers tid = jsGet s.abortControllers tid := by
  induction ts with
  | nil =>
    intro s
    rfl
  | cons t ts ih =>
    intro s
    show jsGet (EventHandler.detachAll (EventHandler.detachAllOne s t) ts).abortControllers tid = _
    rw [ih (fun u hu => h u (List.mem_cons_of_mem _ hu)) _,
      detachAllOne_reg_frame (h t (List.mem_cons_self _ _))]

lemma detach_aborted_mono {K : String} {ts : List EvtArg} {x : Nat} :
    ∀ s, x ∈ s.aborted → x ∈ (EventHandler.detach s K ts).aborted := by
  induction ts with
  | nil =>
    intro s h
    exact h
  | cons t ts ih =>
    intro s h
    exact ih _ (detachOne_aborted_mono h)

lemma detachAll_aborted_mono {ts : List EvtArg} {x : Nat} :
    ∀ s, x ∈ s.aborted → x ∈ (EventHandler.detachAll s ts).aborted := by
  induction ts with
  | nil =>
    intro s h
    exact h
  | cons t ts ih =>
    intro s h
    exact ih _ (detachAllOne_aborted_mono h)

lemma attach_aborted_mono {s : EHState} {K : String} {t : EvtArg} {cb x : Nat}
    (h : x ∈ s.aborted) : x ∈ (EventHandler.attach s K t cb).aborted := by
  by_cases hv : t.valid = true
  · rw [attach_aborted hv]
    exact detachOne_aborted_mono h
  · rw [attach_invalid (Bool.not_eq_true _ ▸ hv : t.valid = false)]
    exact h

lemma detach_aborted_cases {K : String} {ts : List EvtArg} {x : Nat} :
    ∀ s, x ∈ (EventHandler.detach s K ts).aborted →
      x ∈ s.aborted ∨ ∃ u ∈ ts, x ∈ entryCtrls s u.id := by
  induction ts with
  | nil =>
    intro s h
    exact Or.inl h
  | cons t ts ih =>
    intro s h
    have h1 : x ∈ (EventHandler.detach (EventHandler.detachOne s K t) K ts).aborted := h
    rcases ih _ h1 with h2 | ⟨u, hu, h2⟩
    · rcases detachOne_aborted_cases h2 with h3 | h3
      · exact Or.inl h3
      · exact Or.inr ⟨t, List.mem_cons_self _ _, h3⟩
    · exact Or.inr ⟨u, List.mem_cons_of_mem _ hu, detachOne_entryCtrls_sub h2⟩

lemma detachAll_aborted_cases {ts : List EvtArg} {x : Nat} :
    ∀ s, x ∈ (EventHandler.detachAll s ts).aborted →
      x ∈ s.aborted ∨ ∃ u ∈ ts, x ∈ entryCtrls s u.id := by
  induction ts with
  | nil =>
    intro s h
    exact Or.inl h
  | cons t ts ih =>
    intro s h
    have h1 : x ∈ (EventHandler.detachAll (EventHandler.detachAllOne s t) ts).aborted := h
    rcases ih _ h1 with h2 | ⟨u, hu, h2⟩
    · rcases detachAllOne_aborted_cases h2 with h3 | h3
      · exact Or.inl h3
      · exact Or.inr ⟨t, List.mem_cons_self _ _, h3⟩
    · exact Or.inr ⟨u, List.mem_cons_of_mem _ hu, detachAllOne_entryCtrls_sub h2⟩

lemma entryCtrls_lt {s : EHState} {tid c : Nat}
    (hreg : ∀ p ∈ s.abortControllers, ∀ q ∈ p.2, q.2 < s.nextCtrl)
    (h : c ∈ entryCtrls s tid) : c < s.nextCtrl := by
  unfold entryCtrls at h
  cases hr : jsGet s.abortControllers tid with
  | none =>
    rw [hr] at h
    simp at h
  | some m =>
    rw [hr] at h
    simp only [Option.getD_some] at h
    rcases List.mem_map.mp h with ⟨q, hq, hqc⟩
    exact hqc ▸ hreg _ (jsGet_mem hr) _ hq

/-- C1: counter-evidence against "entries with zero remaining subscriptions are
removed immediately".  On a fresh registry, `attach("click", T, cb)` followed by
`detach("click", T)` leaves T's registry entry present (as an empty map) and a
"has any subscription" query still reports true: `detach` guards the entry
removal with `controller.size === 0`, reading the non-existent `size` property
of the `AbortController` (always `undefined === 0`, i.e. false) instead of
`controllers.size === 0`. -/
theorem detach_last_key_leaves_empty_entry :
    jsGet (EventHandler.detach (EventHandler.attach initState "click" ⟨0, true⟩ 7)
        "click" [⟨0, true⟩]).abortControllers 0 = some [] ∧
    hasEntry (EventHandler.detach (EventHandler.attach initState "click" ⟨0, true⟩ 7)
        "click" [⟨0, true⟩]) 0 = true := by
  decide

/-- C5: no operation raises (each is a total function in this embedding), and
with an invalid (non-`EventTarget`) argument each operation returns without
mutating any registry state: `attach` returns the state unchanged, and
`detach`/`detachAll` skip every invalid target in their argument lists. -/
theorem invalid_target_silent_noop (s : EHState) (K : String) (cb : Nat) (t : EvtArg)
    (ts : List EvtArg) (ht : t.valid = false) (hts : ∀ u ∈ ts, u.valid = false) :
    EventHandler.attach s K t cb = s ∧
    EventHandler.detach s K ts = s ∧
    EventHandler.detachAll s ts = s :=
  ⟨attach_invalid ht, detach_invalid_all hts s, detachAll_invalid_all hts s⟩

/-- Witness for C5 at a concrete invalid target and target list. -/
theorem invalid_target_silent_noop_witness :
    (⟨4, false⟩ : EvtArg).valid = false ∧
    (∀ u ∈ [(⟨5, false⟩ : EvtArg), ⟨6, false⟩], u.valid = false) ∧
    (EventHandler.attach initState "click" ⟨4, false⟩ 1 = initState ∧
     EventHandler.detach initState "click" [⟨5, false⟩, ⟨6, false⟩] = initState ∧
     EventHandler.detachAll initState [⟨5, false⟩, ⟨6, false⟩] = initState) :=
  ⟨rfl, by decide,
    invalid_target_silent_noop initState "click" 1 ⟨4, false⟩
      [⟨5, false⟩, ⟨6, false⟩] rfl (by decide)⟩

/-- C4: `detachAll(T)` on a valid target removes T's registry entry, aborts
every cancellation handle that was in the entry, and a subsequent
`detach(K, T)` for any key K is a no-op; invalid targets and targets without an
entry in the argument list are silently skipped. -/
theorem detachAll_clears_target (s : EHState) (t u v : EvtArg) (K : String)
    (ht : t.valid = true) (hu : u.valid = false)
    (hv : v.valid = true) (hvno : jsGet s.abortControllers v.id = none) :
    jsGet (EventHandler.detachAll s [t]).abortControllers t.id = none ∧
    (∀ c ∈ entryCtrls s t.id, c ∈ (EventHandler.detachAll s [t]).aborted) ∧
    EventHandler.detach (EventHandler.detachAll s [t]) K [t] = EventHandler.detachAll s [t] ∧
    EventHandler.detachAll s [u, v] = s := by
  have h1 : EventHandler.detachAll s [t] = EventHandler.detachAllOne s t := rfl
  refine ⟨?_, ?_, ?_, ?_⟩
  · rw [h1]
    exact detachAllOne_removes ht
  · intro c hc
    rw [h1]
    exact detachAllOne_aborts_entry ht hc
  · rw [h1, detach_singleton]
    apply detachOne_noKey
    rw [detachAllOne_removes ht]
    rfl
  · show EventHandler.detachAll (EventHandler.detachAllOne s u) [v] = s
    rw [detachAllOne_invalid hu]
    exact detachAllOne_noEntry hvno

/-- Witness for C4 at a concrete state with two subscriptions on the target. -/
theorem detachAll_clears_target_witness :
    (⟨1, true⟩ : EvtArg).valid = true ∧ (⟨9, false⟩ : EvtArg).valid = false ∧
    (⟨7, true⟩ : EvtArg).valid = true ∧
    jsGet (⟨[(1, [("a", 0), ("b", 1)])], [], [], 2⟩ : EHState).abortControllers 7 = none ∧
    (jsGet (EventHandler.detachAll (⟨[(1, [("a", 0), ("b", 1)])], [], [], 2⟩ : EHState)
        [⟨1, true⟩]).abortControllers 1 = none ∧
     (∀ c ∈ entryCtrls (⟨[(1, [("a", 0), ("b", 1)])], [], [], 2⟩ : EHState) 1,
        c ∈ (EventHandler.detachAll (⟨[(1, [("a", 0), ("b", 1)])], [], [], 2⟩ : EHState)
          [⟨1, true⟩]).aborted) ∧
     EventHandler.detach (EventHandler.detachAll
         (⟨[(1, [("a", 0), ("b", 1)])], [], [], 2⟩ : EHState) [⟨1, true⟩]) "a" [⟨1, true⟩]
       = EventHandler.detachAll (⟨[(1, [("a", 0), ("b", 1)])], [], [], 2⟩ : EHState) [⟨1, true⟩] ∧
     EventHandler.detachAll (⟨[(1, [("a", 0), ("b", 1)])], [], [], 2⟩ : EHState)
         [⟨9, false⟩, ⟨7, true⟩]
       = ⟨[(1, [("a", 0), ("b", 1)])], [], [], 2⟩) :=
  ⟨rfl, rfl, rfl, by decide,
    detachAll_clears_target ⟨[(1, [("a", 0), ("b", 1)])], [], [], 2⟩ ⟨1, true⟩ ⟨9, false⟩
      ⟨7, true⟩ "a" rfl rfl rfl (by decide)⟩

/-- C7: cancellation handles are single-use and idempotent.  Aborting a handle
twice equals aborting it once; `detach` of a recorded key aborts that key's
handle; dispatching never invokes a listener whose signal has been aborted; and
every operation (`attach`, `detach`, `detachAll`) preserves the aborted status
of every previously aborted handle, so a canceled callback is never invoked
again. -/
theorem cancellation_single_use (s : EHState) (K : String) (t : EvtArg)
    (c x cb : Nat) (ts : List EvtArg)
    (ht : t.valid = true)
    (hc : jsGet ((jsGet s.abortControllers t.id).getD []) K = some c) :
    c ∈ (EventHandler.detachOne s K t).aborted ∧
    c ∈ (EventHandler.attach s K t cb).aborted ∧
    (∀ c2 ∈ entryCtrls s t.id, c2 ∈ (EventHandler.detachAllOne s t).aborted) ∧
    abortCtrl (abortCtrl s.aborted c) c = abortCtrl s.aborted c ∧
    (∀ s2 tid ev l, x ∈ s2.aborted → l ∈ dispatchInvoked s2 tid ev → l.signal ≠ x) ∧
    (x ∈ s.aborted → x ∈ (EventHandler.attach s K t cb).aborted) ∧
    (x ∈ s.aborted → x ∈ (EventHandler.detach s K ts).aborted) ∧
    (x ∈ s.aborted → x ∈ (EventHandler.detachAll s ts).aborted) := by
  refine ⟨detachOne_aborts ht hc, ?_, fun c2 h2 => detachAllOne_aborts_entry ht h2,
    abortCtrl_idem _ _, ?_,
    fun h => attach_aborted_mono h, fun h => detach_aborted_mono _ h,
    fun h => detachAll_aborted_mono _ h⟩
  · rw [attach_aborted ht]
    exact detachOne_aborts ht hc
  intro s2 tid ev l hx hl
  unfold dispatchInvoked at hl
  rcases List.mem_map.mp hl with ⟨p, hp, hpl⟩
  have hcond := (List.mem_filter.mp hp).2
  simp only [Bool.and_eq_true] at hcond
  obtain ⟨-, hnc⟩ := hcond
  intro heq
  apply (by simpa using hnc : p.2.signal ∉ s2.aborted)
  rw [hpl, heq]
  exact hx

/-- Witness for C7 at a concrete state holding one subscription. -/
theorem cancellation_single_use_witness :
    (⟨0, true⟩ : EvtArg).valid = true ∧
    jsGet ((jsGet (⟨[(0, [("click", 3)])], [], [], 4⟩ : EHState).abortControllers
        (⟨0, true⟩ : EvtArg).id).getD []) "click" = some 3 ∧
    (3 ∈ (EventHandler.detachOne (⟨[(0, [("click", 3)])], [], [], 4⟩ : EHState) "click"
        ⟨0, true⟩).aborted ∧
     3 ∈ (EventHandler.attach (⟨[(0, [("click", 3)])], [], [], 4⟩ : EHState) "click"
        ⟨0, true⟩ 1).aborted ∧
     (∀ c2 ∈ entryCtrls (⟨[(0, [("click", 3)])], [], [], 4⟩ : EHState)
        (⟨0, true⟩ : EvtArg).id,
       c2 ∈ (EventHandler.detachAllOne (⟨[(0, [("click", 3)])], [], [], 4⟩ : EHState)
         ⟨0, true⟩).aborted) ∧
     abortCtrl (abortCtrl (⟨[(0, [("click", 3)])], [], [], 4⟩ : EHState).aborted 3) 3
       = abortCtrl (⟨[(0, [("click", 3)])], [], [], 4⟩ : EHState).aborted 3 ∧
     (∀ s2 tid ev l, 9 ∈ s2.aborted → l ∈ dispatchInvoked s2 tid ev → l.signal ≠ 9) ∧
     (9 ∈ (⟨[(0, [("click", 3)])], [], [], 4⟩ : EHState).aborted →
       9 ∈ (EventHandler.attach (⟨[(0, [("click", 3)])], [], [], 4⟩ : EHState) "click"
         ⟨0, true⟩ 1).aborted) ∧
     (9 ∈ (⟨[(0, [("click", 3)])], [], [], 4⟩ : EHState).aborted →
       9 ∈ (EventHandler.detach (⟨[(0, [("click", 3)])], [], [], 4⟩ : EHState) "click"
         []).aborted) ∧
     (9 ∈ (⟨[(0, [("click", 3)])], [], [], 4⟩ : EHState).aborted →
       9 ∈ (EventHandler.detachAll (⟨[(0, [("click", 3)])], [], [], 4⟩ : EHState)
         []).aborted)) :=
  ⟨rfl, by decide,
    cancellation_single_use ⟨[(0, [("click", 3)])], [], [], 4⟩ "click" ⟨0, true⟩ 3 9 1 []
      rfl (by decide)⟩

/-- C10: each operation mutates at most the registry entries of its argument
targets.  For a target identity different from every argument, the registry
lookup is unchanged, and any handle not recorded under an argument target (and
not yet aborted) keeps its non-aborted status. -/
theorem operations_touch_only_arguments (s : EHState) (K : String) (cb : Nat)
    (t u : EvtArg) (ts : List EvtArg) (c : Nat)
    (hut : u.id ≠ t.id)
    (huts : ∀ w ∈ ts, u.id ≠ w.id)
    (hcu : c ∉ s.aborted)
    (hct : c ∉ entryCtrls s t.id)
    (hcts : ∀ w ∈ ts, c ∉ entryCtrls s w.id) :
    jsGet (EventHandler.attach s K t cb).abortControllers u.id = jsGet s.abortControllers u.id ∧
    jsGet (EventHandler.detach s K ts).abortControllers u.id = jsGet s.abortControllers u.id ∧
    jsGet (EventHandler.detachAll s ts).abortControllers u.id = jsGet s.abortControllers u.id ∧
    c ∉ (EventHandler.attach s K t cb).aborted ∧
    c ∉ (EventHandler.detach s K ts).aborted ∧
    c ∉ (EventHandler.detachAll s ts).aborted := by
  refine ⟨?_, detach_reg_frame huts s, detachAll_reg_frame huts s, ?_, ?_, ?_⟩
  · by_cases hv : t.valid = true
    · rw [attach_abortControllers hv, jsGet_jsSet_ne _ _ _ _ hut]
      exact detachOne_reg_frame hut
    · rw [attach_invalid (Bool.not_eq_true _ ▸ hv : t.valid = false)]
  · intro h
    by_cases hv : t.valid = true
    · rw [attach_aborted hv] at h
      rcases detachOne_aborted_cases h with h1 | h1
      · exact hcu h1
      · exact hct h1
    · rw [attach_invalid (Bool.not_eq_true _ ▸ hv : t.valid = false)] at h
      exact hcu h
  · intro h
    rcases detach_aborted_cases _ h with h1 | ⟨w, hw, h1⟩
    · exact hcu h1
    · exact hcts w hw h1
  · intro h
    rcases detachAll_aborted_cases _ h with h1 | ⟨w, hw, h1⟩
    · exact hcu h1
    · exact hcts w hw h1

/-- C6: for every subscription key, `attach` registers the listener with the
platform under the key's type token only (`eventType.split('.')[0]`, the
portion before the first name delimiter — equal to the characters of the key
before its first dot), while the registry records the new cancellation handle
under the full key string. -/
theorem attach_registers_type_token_records_full_key (s : EHState) (K : String)
    (t : EvtArg) (cb : Nat)
    (ht : t.valid = true)
    (hab : ∀ c ∈ s.aborted, c < s.nextCtrl)
    (hreg : ∀ p ∈ s.abortControllers, ∀ q ∈ p.2, q.2 < s.nextCtrl) :
    (EventHandler.attach s K t cb).domListeners
      = s.domListeners ++ [(t.id, ⟨typeToken K, cb, s.nextCtrl⟩)] ∧
    jsGet ((jsGet (EventHandler.attach s K t cb).abortControllers t.id).getD []) K
      = some s.nextCtrl ∧
    typeToken K = specTypeToken K := by
  have hn := detachOne_nextCtrl s K t
  have hfresh : ((EventHandler.detachOne s K t).aborted.contains s.nextCtrl) = false := by
    cases hb : (EventHandler.detachOne s K t).aborted.contains s.nextCtrl with
    | false => rfl
    | true =>
      have hmem : s.nextCtrl ∈ (EventHandler.detachOne s K t).aborted := by simpa using hb
      rcases detachOne_aborted_cases hmem with h1 | h1
      · exact absurd (hab _ h1) (lt_irrefl _)
      · exact absurd (entryCtrls_lt hreg h1) (lt_irrefl _)
  refine ⟨?_, ?_, typeToken_eq_spec K⟩
  · rw [attach_eq ht,
      show ∀ (x : EHState) (y : List (Nat × List (String × Nat))),
        ({ x with abortControllers := y } : EHState).domListeners = x.domListeners
        from fun _ _ => rfl]
    unfold addEventListener
    rw [show ({ EventHandler.detachOne s K t with
          nextCtrl := (EventHandler.detachOne s K t).nextCtrl + 1 } : EHState).aborted
        = (EventHandler.detachOne s K t).aborted from rfl, hn, hfresh]
    simp [detachOne_domListeners, hn]
  · rw [attach_abortControllers ht, jsGet_jsSet_self]
    simp only [Option.getD_some]
    rw [jsGet_jsSet_self, hn]

/-- Witness for C6 on the empty initial state with a named key. -/
theorem attach_registers_type_token_records_full_key_witness :
    (⟨2, true⟩ : EvtArg).valid = true ∧
    (∀ c ∈ initState.aborted, c < initState.nextCtrl) ∧
    (∀ p ∈ initState.abortControllers, ∀ q ∈ p.2, q.2 < initState.nextCtrl) ∧
    ((EventHandler.attach initState "click.x" ⟨2, true⟩ 9).domListeners
       = initState.domListeners
         ++ [((⟨2, true⟩ : EvtArg).id, ⟨typeToken "click.x", 9, initState.nextCtrl⟩)] ∧
     jsGet ((jsGet (EventHandler.attach initState "click.x" ⟨2, true⟩ 9).abortControllers
         (⟨2, true⟩ : EvtArg).id).getD []) "click.x" = some initState.nextCtrl ∧
     typeToken "click.x" = specTypeToken "click.x") :=
  ⟨rfl, by decide, by decide,
    attach_registers_type_token_records_full_key initState "click.x" ⟨2, true⟩ 9 rfl
      (by decide) (by decide)⟩

lemma attach_init_eval {K : String} {t : EvtArg} {cb : Nat} (ht : t.valid = true) :
    EventHandler.attach initState K t cb =
      ⟨[(t.id, [(K, 0)])], [(t.id, ⟨typeToken K, cb, 0⟩)], [], 1⟩ := by
  rw [attach_eq ht, detachOne_noKey (show jsGet ((jsGet initState.abortControllers t.id).getD [])
    K = none from rfl)]
  simp [addEventListener, initState, jsSet, jsGet]

lemma attach_second_eval {K : String} {t : EvtArg} {cb1 cb2 : Nat} (ht : t.valid = true) :
    EventHandler.attach (⟨[(t.id, [(K, 0)])], [(t.id, ⟨typeToken K, cb1, 0⟩)], [], 1⟩ : EHState)
        K t cb2 =
      ⟨[(t.id, [(K, 1)])],
       [(t.id, ⟨typeToken K, cb1, 0⟩), (t.id, ⟨typeToken K, cb2, 1⟩)], [0], 2⟩ := by
  have hd : EventHandler.detachOne
      (⟨[(t.id, [(K, 0)])], [(t.id, ⟨typeToken K, cb1, 0⟩)], [], 1⟩ : EHState) K t =
      ⟨[(t.id, [])], [(t.id, ⟨typeToken K, cb1, 0⟩)], [0], 1⟩ := by
    rw [detachOne_eq]
    simp [ht, jsGet, jsSet, jsDelete, abortCtrl, bne]
  rw [attach_eq ht, hd]
  simp [addEventListener, jsSet, jsGet]

/-- C2: attaching twice under the same key for the same valid target leaves
exactly one active subscription under that key (the second handle), aborts the
first handle, and one dispatch of the key's event type invokes only the second
callback, exactly once; the first callback is not invoked. -/
theorem attach_twice_replaces (K : String) (t : EvtArg) (cb1 cb2 : Nat)
    (ht : t.valid = true) (hne : cb1 ≠ cb2) :
    jsGet (EventHandler.attach (EventHandler.attach initState K t cb1) K t cb2).abortControllers
        t.id = some [(K, 1)] ∧
    0 ∈ (EventHandler.attach (EventHandler.attach initState K t cb1) K t cb2).aborted ∧
    dispatch (EventHandler.attach (EventHandler.attach initState K t cb1) K t cb2) t.id
        (typeToken K) = [cb2] ∧
    cb1 ∉ dispatch (EventHandler.attach (EventHandler.attach initState K t cb1) K t cb2) t.id
        (typeToken K) := by
  rw [attach_init_eval ht, attach_second_eval ht]
  refine ⟨by simp [jsGet], by simp, ?_, ?_⟩
  · simp [dispatch, dispatchInvoked, List.contains]
  · simp [dispatch, dispatchInvoked, List.contains, hne]

/-- Witness for C2 with key `"open.x"` on a fresh bus target. -/
theorem attach_twice_replaces_witness :
    (⟨3, true⟩ : EvtArg).valid = true ∧ (10 : Nat) ≠ 20 ∧
    (jsGet (EventHandler.attach (EventHandler.attach initState "open.x" ⟨3, true⟩ 10)
        "open.x" ⟨3, true⟩ 20).abortControllers (⟨3, true⟩ : EvtArg).id
      = some [("open.x", 1)] ∧
     0 ∈ (EventHandler.attach (EventHandler.attach initState "open.x" ⟨3, true⟩ 10)
        "open.x" ⟨3, true⟩ 20).aborted ∧
     dispatch (EventHandler.attach (EventHandler.attach initState "open.x" ⟨3, true⟩ 10)
        "open.x" ⟨3, true⟩ 20) (⟨3, true⟩ : EvtArg).id (typeToken "open.x") = [20] ∧
     10 ∉ dispatch (EventHandler.attach (EventHandler.attach initState "open.x" ⟨3, true⟩ 10)
        "open.x" ⟨3, true⟩ 20) (⟨3, true⟩ : EvtArg).id (typeToken "open.x")) :=
  ⟨rfl, by decide, attach_twice_replaces "open.x" ⟨3, true⟩ 10 20 rfl (by decide)⟩

/-- C3: `detach(K, T)` with no subscription recorded under K (never attached or
already detached) is a no-op with no state change; and in the spec's scenario —
`attach("click.a", btn, f1)`, `attach("click.b", btn, f2)`,
`detach("click.a", btn)` — dispatching a click on btn invokes f2 only, not f1:
the key `"click.b"` still maps to its (non-aborted) handle while `"click.a"` is
removed and its handle aborted. -/
theorem detach_removes_only_its_key (s : EHState) (K : String) (t btn : EvtArg)
    (f1 f2 : Nat)
    (ht : t.valid = true)
    (hnone : jsGet ((jsGet s.abortControllers t.id).getD []) K = none)
    (hb : btn.valid = true) (hf : f1 ≠ f2) :
    EventHandler.detachOne s K t = s ∧
    dispatch (EventHandler.detach (EventHandler.attach
        (EventHandler.attach initState "click.a" btn f1) "click.b" btn f2)
        "click.a" [btn]) btn.id "click" = [f2] ∧
    f1 ∉ dispatch (EventHandler.detach (EventHandler.attach
        (EventHandler.attach initState "click.a" btn f1) "click.b" btn f2)
        "click.a" [btn]) btn.id "click" ∧
    jsGet ((jsGet (EventHandler.detach (EventHandler.attach
        (EventHandler.attach initState "click.a" btn f1) "click.b" btn f2)
        "click.a" [btn]).abortControllers btn.id).getD []) "click.b" = some 1 ∧
    jsGet ((jsGet (EventHandler.detach (EventHandler.attach
        (EventHandler.attach initState "click.a" btn f1) "click.b" btn f2)
        "click.a" [btn]).abortControllers btn.id).getD []) "click.a" = none ∧
    1 ∉ (EventHandler.detach (EventHandler.attach
        (EventHandler.attach initState "click.a" btn f1) "click.b" btn f2)
        "click.a" [btn]).aborted ∧
    0 ∈ (EventHandler.detach (EventHandler.attach
        (EventHandler.attach initState "click.a" btn f1) "click.b" btn f2)
        "click.a" [btn]).aborted := by
  have hne1 : (("click.a" : String) == "click.b") = false := by decide
  have hne2 : (("click.b" : String) == "click.a") = false := by decide
  have htta : typeToken "click.a" = "click" := by decide
  have httb : typeToken "click.b" = "click" := by decide
  have hd2 : EventHandler.detachOne
      (⟨[(btn.id, [("click.a", 0)])], [(btn.id, ⟨typeToken "click.a", f1, 0⟩)], [], 1⟩ :
        EHState) "click.b" btn =
      ⟨[(btn.id, [("click.a", 0)])], [(btn.id, ⟨typeToken "click.a", f1, 0⟩)], [], 1⟩ :=
    detachOne_noKey (by simp [jsGet, hne1])
  have h2 : EventHandler.attach
      (⟨[(btn.id, [("click.a", 0)])], [(btn.id, ⟨typeToken "click.a", f1, 0⟩)], [], 1⟩ :
        EHState) "click.b" btn f2 =
      ⟨[(btn.id, [("click.a", 0), ("click.b", 1)])],
       [(btn.id, ⟨typeToken "click.a", f1, 0⟩), (btn.id, ⟨typeToken "click.b", f2, 1⟩)],
       [], 2⟩ := by
    rw [attach_eq hb, hd2]
    simp [addEventListener, jsSet, jsGet, hne1]
  have h3 : EventHandler.detach
      (⟨[(btn.id, [("click.a", 0), ("click.b", 1)])],
        [(btn.id, ⟨typeToken "click.a", f1, 0⟩), (btn.id, ⟨typeToken "click.b", f2, 1⟩)],
        [], 2⟩ : EHState) "click.a" [btn] =
      ⟨[(btn.id, [("click.b", 1)])],
       [(btn.id, ⟨typeToken "click.a", f1, 0⟩), (btn.id, ⟨typeToken "click.b", f2, 1⟩)],
       [0], 2⟩ := by
    rw [detach_singleton, detachOne_eq]
    simp [hb, jsGet, jsSet, jsDelete, abortCtrl, bne, hne2]
  rw [attach_init_eval hb, h2, h3]
  refine ⟨detachOne_noKey hnone, ?_, ?_, by simp [jsGet], by simp [jsGet, hne2], by simp,
    by simp⟩
  · simp [dispatch, dispatchInvoked, htta, httb, List.contains]
  · simp [dispatch, dispatchInvoked, htta, httb, List.contains, hf]

/-- Witness for C3 with the spec's concrete keys on a fresh registry. -/
theorem detach_removes_only_its_key_witness :
    (⟨0, true⟩ : EvtArg).valid = true ∧
    jsGet ((jsGet initState.abortControllers (⟨0, true⟩ : EvtArg).id).getD []) "zzz" = none ∧
    (⟨1, true⟩ : EvtArg).valid = true ∧ (7 : Nat) ≠ 8 ∧
    (EventHandler.detachOne initState "zzz" ⟨0, true⟩ = initState ∧
     dispatch (EventHandler.detach (EventHandler.attach
        (EventHandler.attach initState "click.a" ⟨1, true⟩ 7) "click.b" ⟨1, true⟩ 8)
        "click.a" [⟨1, true⟩]) (⟨1, true⟩ : EvtArg).id "click" = [8] ∧
     7 ∉ dispatch (EventHandler.detach (EventHandler.attach
        (EventHandler.attach initState "click.a" ⟨1, true⟩ 7) "click.b" ⟨1, true⟩ 8)
        "click.a" [⟨1, true⟩]) (⟨1, true⟩ : EvtArg).id "click" ∧
     jsGet ((jsGet (EventHandler.detach (EventHandler.attach
        (EventHandler.attach initState "click.a" ⟨1, true⟩ 7) "click.b" ⟨1, true⟩ 8)
        "click.a" [⟨1, true⟩]).abortControllers (⟨1, true⟩ : EvtArg).id).getD [])
        "click.b" = some 1 ∧
     jsGet ((jsGet (EventHandler.detach (EventHandler.attach
        (EventHandler.attach initState "click.a" ⟨1, true⟩ 7) "click.b" ⟨1, true⟩ 8)
        "click.a" [⟨1, true⟩]).abortControllers (⟨1, true⟩ : EvtArg).id).getD [])
        "click.a" = none ∧
     1 ∉ (EventHandler.detach (EventHandler.attach
        (EventHandler.attach initState "click.a" ⟨1, true⟩ 7) "click.b" ⟨1, true⟩ 8)
        "click.a" [⟨1, true⟩]).aborted ∧
     0 ∈ (EventHandler.detach (EventHandler.attach
        (EventHandler.attach initState "click.a" ⟨1, true⟩ 7) "click.b" ⟨1, true⟩ 8)
        "click.a" [⟨1, true⟩]).aborted) :=
  ⟨rfl, rfl, rfl, by decide,
    detach_removes_only_its_key initState "zzz" ⟨0, true⟩ ⟨1, true⟩ 7 8 rfl rfl rfl
      (by decide)⟩

/-- C9: the event type registered with the platform is the portion of the key
before the first dot: a key with several dots such as `"click.a.b"` registers
type `"click"`, a key beginning with a dot registers the empty-string type, and
in general `typeToken` equals the characters before the first dot.  The full
key is the registry identity, so two distinct keys sharing a type token form
two independent subscriptions that both fire on one dispatch of that type. -/
theorem type_token_first_dot_names_independent (K1 K2 : String) (t : EvtArg)
    (f1 f2 : Nat)
    (ht : t.valid = true) (hk : K1 ≠ K2) (hsame : typeToken K1 = typeToken K2) :
    typeToken "click.a.b" = "click" ∧
    typeToken ".open" = "" ∧
    (∀ K : String, typeToken K = specTypeToken K) ∧
    jsGet ((jsGet (EventHandler.attach (EventHandler.attach initState K1 t f1) K2 t
        f2).abortControllers t.id).getD []) K1 = some 0 ∧
    jsGet ((jsGet (EventHandler.attach (EventHandler.attach initState K1 t f1) K2 t
        f2).abortControllers t.id).getD []) K2 = some 1 ∧
    dispatch (EventHandler.attach (EventHandler.attach initState K1 t f1) K2 t f2) t.id
        (typeToken K1) = [f1, f2] := by
  have hb12 : (K1 == K2) = false := by simpa using hk
  have hd2 : EventHandler.detachOne
      (⟨[(t.id, [(K1, 0)])], [(t.id, ⟨typeToken K1, f1, 0⟩)], [], 1⟩ : EHState) K2 t =
      ⟨[(t.id, [(K1, 0)])], [(t.id, ⟨typeToken K1, f1, 0⟩)], [], 1⟩ :=
    detachOne_noKey (by simp [jsGet, hb12])
  have h2 : EventHandler.attach
      (⟨[(t.id, [(K1, 0)])], [(t.id, ⟨typeToken K1, f1, 0⟩)], [], 1⟩ : EHState) K2 t f2 =
      ⟨[(t.id, [(K1, 0), (K2, 1)])],
       [(t.id, ⟨typeToken K1, f1, 0⟩), (t.id, ⟨typeToken K2, f2, 1⟩)], [], 2⟩ := by
    rw [attach_eq ht, hd2]
    simp [addEventListener, jsSet, jsGet, hb12]
  rw [attach_init_eval ht, h2]
  refine ⟨by decide, by decide, fun K => typeToken_eq_spec K, by simp [jsGet],
    by simp [jsGet, hb12], ?_⟩
  simp [dispatch, dispatchInvoked, List.contains, hsame]

/-- Witness for C9 with keys `"click.a"` and `"click.b"`. -/
theorem type_token_first_dot_names_independent_witness :
    (⟨2, true⟩ : EvtArg).valid = true ∧ ("click.a" : String) ≠ "click.b" ∧
    typeToken "click.a" = typeToken "click.b" ∧
    (typeToken "click.a.b" = "click" ∧
     typeToken ".open" = "" ∧
     (∀ K : String, typeToken K = specTypeToken K) ∧
     jsGet ((jsGet (EventHandler.attach (EventHandler.attach initState "click.a" ⟨2, true⟩ 4)
        "click.b" ⟨2, true⟩ 5).abortControllers (⟨2, true⟩ : EvtArg).id).getD [])
        "click.a" = some 0 ∧
     jsGet ((jsGet (EventHandler.attach (EventHandler.attach initState "click.a" ⟨2, true⟩ 4)
        "click.b" ⟨2, true⟩ 5).abortControllers (⟨2, true⟩ : EvtArg).id).getD [])
        "click.b" = some 1 ∧
     dispatch (EventHandler.attach (EventHandler.attach initState "click.a" ⟨2, true⟩ 4)
        "click.b" ⟨2, true⟩ 5) (⟨2, true⟩ : EvtArg).id (typeToken "click.a") = [4, 5]) :=
  ⟨rfl, by decide, by decide,
    type_token_first_dot_names_independent "click.a" "click.b" ⟨2, true⟩ 4 5 rfl (by decide)
      (by decide)⟩

/-- Witness for C10: a state with two targets; operating on target 0 leaves
target 5's entry and its handle 2 untouched. -/
theorem operations_touch_only_arguments_witness :
    ((⟨5, true⟩ : EvtArg).id ≠ (⟨0, true⟩ : EvtArg).id) ∧
    (∀ w ∈ [(⟨0, true⟩ : EvtArg)], (⟨5, true⟩ : EvtArg).id ≠ w.id) ∧
    (2 ∉ (⟨[(0, [("a", 1)]), (5, [("b", 2)])], [], [], 3⟩ : EHState).aborted) ∧
    (2 ∉ entryCtrls (⟨[(0, [("a", 1)]), (5, [("b", 2)])], [], [], 3⟩ : EHState)
      (⟨0, true⟩ : EvtArg).id) ∧
    (∀ w ∈ [(⟨0, true⟩ : EvtArg)],
      2 ∉ entryCtrls (⟨[(0, [("a", 1)]), (5, [("b", 2)])], [], [], 3⟩ : EHState) w.id) ∧
    (jsGet (EventHandler.attach (⟨[(0, [("a", 1)]), (5, [("b", 2)])], [], [], 3⟩ : EHState)
        "a" ⟨0, true⟩ 8).abortControllers (⟨5, true⟩ : EvtArg).id
      = jsGet (⟨[(0, [("a", 1)]), (5, [("b", 2)])], [], [], 3⟩ : EHState).abortControllers
          (⟨5, true⟩ : EvtArg).id ∧
     jsGet (EventHandler.detach (⟨[(0, [("a", 1)]), (5, [("b", 2)])], [], [], 3⟩ : EHState)
        "a" [⟨0, true⟩]).abortControllers (⟨5, true⟩ : EvtArg).id
      = jsGet (⟨[(0, [("a", 1)]), (5, [("b", 2)])], [], [], 3⟩ : EHState).abortControllers
          (⟨5, true⟩ : EvtArg).id ∧
     jsGet (EventHandler.detachAll (⟨[(0, [("a", 1)]), (5, [("b", 2)])], [], [], 3⟩ : EHState)
        [⟨0, true⟩]).abortControllers (⟨5, true⟩ : EvtArg).id
      = jsGet (⟨[(0, [("a", 1)]), (5, [("b", 2)])], [], [], 3⟩ : EHState).abortControllers
          (⟨5, true⟩ : EvtArg).id ∧
     2 ∉ (EventHandler.attach (⟨[(0, [("a", 1)]), (5, [("b", 2)])], [], [], 3⟩ : EHState)
        "a" ⟨0, true⟩ 8).aborted ∧
     2 ∉ (EventHandler.detach (⟨[(0, [("a", 1)]), (5, [("b", 2)])], [], [], 3⟩ : EHState)
        "a" [⟨0, true⟩]).aborted ∧
     2 ∉ (EventHandler.detachAll (⟨[(0, [("a", 1)]), (5, [("b", 2)])], [], [], 3⟩ : EHState)
        [⟨0, true⟩]).aborted) :=
  ⟨by decide, by decide, by decide, by decide, by decide,
    operations_touch_only_arguments ⟨[(0, [("a", 1)]), (5, [("b", 2)])], [], [], 3⟩ "a" 8
      ⟨0, true⟩ ⟨5, true⟩ [⟨0, true⟩] 2 (by decide) (by decide) (by decide) (by decide)
      (by decide)⟩
